import Mathlib

namespace Binmod

/-!
Verification development for the `binmod-core` Wasm-embedding runtime.

The Rust sources are shallowly embedded: the JSON value trees produced and
consumed by the serde-derived codecs are modelled by an explicit `Json`
inductive (the rendering of such a tree to UTF-8 bytes and the inverse parse
are the external "JSON encoder" collaborator, out of scope per the spec, and
are faithful bijections on these trees, so `to_bytes`/`from_bytes` are stated
at the tree level); stateful operations against the Wasm guest are embedded
as explicit state passing over an abstract guest-state type; machine
integers (`u32`, `u64`, `usize`) are naturals with explicit bounds and
`% 2 ^ w` where a cast could truncate; fallible Rust functions return
`Except`.
-/

/-- JSON value tree, the image of `serde_json::Value` (src dependency of
`input.rs` / `result.rs`).  Objects are association lists; the `HashMap`
iteration order of the Rust side is irrelevant to every claim treated here
because encode/decode act field-wise. Numbers are modelled as integers; no
claim inspects numeric payloads. -/
inductive Json where
  | null : Json
  | bool : Bool → Json
  | num : Int → Json
  | str : String → Json
  | arr : List Json → Json
  | obj : List (String × Json) → Json

/-- Structured error payload, from `error.rs` lines 72-77 (`FnError` with
serde rename of `error_type` to `type`). -/
structure FnError where
  error_type : String
  message : String
deriving DecidableEq, Repr

/-- Display rendering of `FnError`, from `error.rs` lines 96-100:
`"{error_type}: {message}"`. -/
def FnError.display (e : FnError) : String :=
  e.error_type ++ ": " ++ e.message

/-- Value of `std::any::type_name::<FnError>()` in this crate (`lib.rs`
declares `extern crate self as binmod_core`, and `FnError` lives in module
`error`). -/
def fnErrorTypeName : String := "binmod_core::error::FnError"

/-- Arguments of one call, from `input.rs` lines 9-17.  Both fields carry
`#[serde(skip_serializing_if = "Option::is_none")]`. -/
structure FnInput where
  args : Option (List Json)
  kwargs : Option (List (String × Json))

/-- Construct-empty, from `input.rs` lines 24-29. -/
def FnInput.new : FnInput :=
  { args := none, kwargs := none }

/-- Append one positional argument, from `input.rs` lines 39-54.  The
`to_value` serialization of the caller's `T` has already happened: the
argument arrives as a `Json` tree. -/
def FnInput.with_arg (i : FnInput) (v : Json) : FnInput :=
  match i.args with
  | some existing => { i with args := some (existing ++ [v]) }
  | none => { i with args := some [v] }

/-- Append many positional arguments, from `input.rs` lines 64-84. -/
def FnInput.with_args (i : FnInput) (vs : List Json) : FnInput :=
  match i.args with
  | some existing => { i with args := some (existing ++ vs) }
  | none => { i with args := some vs }

/-- Insertion into the keyword map, modelling `HashMap::insert`: an existing
binding of the key is replaced, otherwise the pair is adjoined. -/
def insertKw (kvs : List (String × Json)) (key : String) (v : Json) :
    List (String × Json) :=
  match kvs with
  | [] => [(key, v)]
  | (k, w) :: rest =>
    if k = key then (k, v) :: rest else (k, w) :: insertKw rest key v

/-- Insert one keyword argument, from `input.rs` lines 95-112. -/
def FnInput.with_kwarg (i : FnInput) (key : String) (v : Json) : FnInput :=
  match i.kwargs with
  | some existing => { i with kwargs := some (insertKw existing key v) }
  | none => { i with kwargs := some [(key, v)] }

/-- Insert many keyword arguments, from `input.rs` lines 122-143. -/
def FnInput.with_kwargs (i : FnInput) (kvs : List (String × Json)) : FnInput :=
  match i.kwargs with
  | some existing =>
    { i with kwargs := some (kvs.foldl (fun acc kv => insertKw acc kv.1 kv.2) existing) }
  | none => { i with kwargs := some kvs }

/-- Read a positional argument by index, from `input.rs` lines 153-165.  The
serde deserialization of the stored `Json` into the caller's `T` is the
parameter `dec`; the two fall-through branches of the source produce the
same `MissingArg` error value. -/
def FnInput.get_arg {α : Type} (dec : Json → Except String α) (i : FnInput)
    (index : Nat) : Except FnError α :=
  match i.args with
  | some args =>
    if h : index < args.length then
      match dec (args.get ⟨index, h⟩) with
      | .ok v => .ok v
      | .error e =>
        .error ⟨"DeserializationError",
          "Failed to parse argument " ++ toString index ++ ": " ++ e⟩
    else
      .error ⟨"MissingArg", "Missing arg in position " ++ toString index⟩
  | none => .error ⟨"MissingArg", "Missing arg in position " ++ toString index⟩

/-- Serde serialization of `FnInput` (derived in `input.rs` lines 9-17): only
the non-absent fields are emitted, `args` as a JSON array and `kwargs` as a
JSON object.  `serde_json::to_vec` (`input.rs` lines 231-236) renders this
tree to bytes; the rendering is the external JSON encoder and cannot fail on
these trees, so `to_bytes` is total here. -/
def FnInput.to_bytes (i : FnInput) : Json :=
  Json.obj
    ((match i.args with
      | some a => [("args", Json.arr a)]
      | none => []) ++
     (match i.kwargs with
      | some k => [("kwargs", Json.obj k)]
      | none => []))

/-- Lookup of a field in a JSON object body (first occurrence), as serde does
when deserializing a struct from a JSON object. -/
def lookupField (key : String) : List (String × Json) → Option Json
  | [] => none
  | (k, v) :: rest => if k = key then some v else lookupField key rest

/-- Field presence in an encoded JSON object: the wire distinction between an
absent field and a field bound to `null`. -/
def hasField (key : String) (j : Json) : Bool :=
  match j with
  | .obj fields => (lookupField key fields).isSome
  | _ => false

/-- Serde deserialization of `FnInput` from a parsed JSON tree (`input.rs`
lines 246-251): each `Option` field is `none` when the field is absent or
`null`, is the payload when it has the right shape, and is a
`DeserializationError` otherwise. -/
def FnInput.from_bytes (j : Json) : Except FnError FnInput :=
  match j with
  | .obj fields =>
    match
      (match lookupField "args" fields with
       | none => Except.ok (none : Option (List Json))
       | some Json.null => Except.ok none
       | some (Json.arr xs) => Except.ok (some xs)
       | some _ =>
         Except.error (⟨"DeserializationError", "invalid type for field args"⟩ : FnError)) with
    | .error e => .error e
    | .ok args =>
      match
        (match lookupField "kwargs" fields with
         | none => Except.ok (none : Option (List (String × Json)))
         | some Json.null => Except.ok none
         | some (Json.obj kvs) => Except.ok (some kvs)
         | some _ =>
           Except.error
             (⟨"DeserializationError", "invalid type for field kwargs"⟩ : FnError)) with
      | .error e => .error e
      | .ok kwargs => .ok { args := args, kwargs := kwargs }
  | _ => .error ⟨"DeserializationError", "expected a JSON object"⟩

/-- Outcome of one call, from `result.rs` lines 9-16: internally tagged by
the field `object` with variant names `data` and `error`; the `Error` case
flattens `FnError` beside the tag.  Note that `value` carries no
`skip_serializing_if` attribute. -/
inductive FnResult where
  | Data : Option Json → FnResult
  | Error : FnError → FnResult

/-- Successful result, from `result.rs` lines 27-34; the argument is the
`to_value` image of the caller's value. -/
def FnResult.ok (v : Json) : FnResult :=
  .Data (some v)

/-- Error result from any displayable error, from `result.rs` lines 43-50:
the stored `FnError` has `type = any::type_name::<E>()` and
`message = error.to_string()`. -/
def FnResult.err (typeName : String) (shown : String) : FnResult :=
  .Error ⟨typeName, shown⟩

/-- The specialization of `FnResult::err` at `E = FnError`, as invoked by the
host-function adapter (`host_fns.rs` line 58): the type is the Rust type
path of `FnError` and the message is its `Display` rendering. -/
def FnResult.errOf (e : FnError) : FnResult :=
  FnResult.err fnErrorTypeName e.display

/-- Unit result, from `result.rs` lines 56-58. -/
def FnResult.none : FnResult :=
  .Data Option.none

/-- Discriminator test, from `result.rs` lines 76-78. -/
def FnResult.is_error : FnResult → Bool
  | .Error _ => true
  | .Data _ => false

/-- Discriminator test, from `result.rs` lines 81-83. -/
def FnResult.is_data : FnResult → Bool
  | .Data _ => true
  | .Error _ => false

/-- Serde serialization of `FnResult` (derived in `result.rs` lines 9-16):
the tag field `object` comes first; in the `Data` case the `value` field is
always emitted, with `None` serialized as JSON `null` (there is no skip
attribute); in the `Error` case the flattened `FnError` contributes `type`
and `message` beside the tag. -/
def FnResult.to_bytes : FnResult → Json
  | .Data value =>
    Json.obj
      [("object", Json.str "data"),
       ("value", match value with | some v => v | Option.none => Json.null)]
  | .Error e =>
    Json.obj
      [("object", Json.str "error"),
       ("type", Json.str e.error_type),
       ("message", Json.str e.message)]

/-- Serde deserialization of `FnResult` from a parsed JSON tree (`result.rs`
lines 105-110): dispatch on the `object` tag; in the `data` case an absent
or `null` `value` field gives `Data None` (an `Option` field deserializes
`null` to `None` and defaults to `None` when missing), any other tree gives
`Data (Some v)`; in the `error` case the `type` and `message` string fields
are required. -/
def FnResult.from_bytes (j : Json) : Except FnError FnResult :=
  match j with
  | .obj fields =>
    match lookupField "object" fields with
    | some (Json.str "data") =>
      match lookupField "value" fields with
      | Option.none => .ok (.Data Option.none)
      | some Json.null => .ok (.Data Option.none)
      | some v => .ok (.Data (some v))
    | some (Json.str "error") =>
      match lookupField "type" fields, lookupField "message" fields with
      | some (Json.str t), some (Json.str m) => .ok (.Error ⟨t, m⟩)
      | _, _ => .error ⟨"DeserializationError", "invalid error payload"⟩
    | _ => .error ⟨"DeserializationError", "missing or unknown object tag"⟩
  | _ => .error ⟨"DeserializationError", "expected a JSON object"⟩

/-- Pack a pointer and a length into one 64-bit descriptor, from `memory.rs`
lines 17-19: `((ptr as u64) << 32) | (len as u64)`.  Here `ptr : u32` and
`len : usize` (64-bit) are naturals; the u64 arithmetic is exact below
`2 ^ 64`, made explicit by the final reduction. -/
def pack_ptr (ptr len : Nat) : Nat :=
  ((ptr <<< 32) ||| len) % 2 ^ 64

/-- Unpack a 64-bit descriptor into pointer and length, from `memory.rs`
lines 29-31: `((packed >> 32) as u32, (packed & 0xFFFFFFFF) as usize)`.  The
`as u32` truncation is the `% 2 ^ 32`. -/
def unpack_ptr (packed : Nat) : Nat × Nat :=
  ((packed >>> 32) % 2 ^ 32, packed &&& 0xFFFFFFFF)

/-- Host-side error type, from `error.rs` lines 5-67.  Payloads that are
foreign error values in Rust (serde, wasmtime, I/O) are carried as their
display strings. -/
inductive ModuleError where
  | FunctionError : FnError → ModuleError
  | SerializeError : String → ModuleError
  | NotInstantiated : ModuleError
  | FuelNotEnabled : ModuleError
  | FunctionNotFound : String → ModuleError
  | InvalidFunctionSignature : ModuleError
  | MemoryError : String → ModuleError
  | RuntimeError : String → ModuleError
  | Trap : String → ModuleError
  | WasmtimeError : String → ModuleError
  | IoError : String → ModuleError
  | AlreadyInstantiated : ModuleError
  | InstantiationError : String → ModuleError
  | ModuleNotFound : String → ModuleError
  | InvalidModuleConfig : String → ModuleError
deriving DecidableEq, Repr

/-- Synchronous memory bridge, from `memory.rs` lines 33-38: a handle on the
guest's exported linear memory and its `guest_alloc` / `guest_dealloc`
functions.  The guest is abstract: its state has type `σ` and the four
primitives are the effects wasmtime would perform against it (the typed
function calls and the raw memory access). -/
structure MemoryOps (σ : Type) where
  memRead : σ → Nat → Nat → Except String (List Nat)
  memWrite : σ → Nat → List Nat → Except String σ
  allocFn : σ → Nat → Except String (σ × Nat)
  deallocFn : σ → Nat → Nat → Except String σ

/-- Guest allocation, from `memory.rs` lines 102-108. -/
def MemoryOps.alloc {σ : Type} (m : MemoryOps σ) (s : σ) (size : Nat) :
    Except ModuleError (σ × Nat) :=
  match m.allocFn s size with
  | .ok r => .ok r
  | .error e => .error (ModuleError.MemoryError ("Guest alloc failed: " ++ e))

/-- Guest deallocation, from `memory.rs` lines 121-127. -/
def MemoryOps.dealloc {σ : Type} (m : MemoryOps σ) (s : σ) (ptr size : Nat) :
    Except ModuleError σ :=
  match m.deallocFn s ptr size with
  | .ok s2 => .ok s2
  | .error e => .error (ModuleError.MemoryError ("Guest dealloc failed: " ++ e))

/-- Write into guest memory, from `memory.rs` lines 139-148: allocate, copy,
return the region. -/
def MemoryOps.write {σ : Type} (m : MemoryOps σ) (s : σ) (data : List Nat) :
    Except ModuleError (σ × (Nat × Nat)) :=
  match MemoryOps.alloc m s data.length with
  | .error e => .error e
  | .ok (s1, ptr) =>
    match m.memWrite s1 ptr data with
    | .error e => .error (ModuleError.MemoryError ("Memory write failed: " ++ e))
    | .ok s2 => .ok (s2, (ptr, data.length))

/-- Read from guest memory, from `memory.rs` lines 161-176: refuse a null
pointer or zero length, copy `len` bytes out, then immediately deallocate
the region. -/
def MemoryOps.read {σ : Type} (m : MemoryOps σ) (s : σ) (ptr len : Nat) :
    Except ModuleError (σ × List Nat) :=
  if ptr = 0 ∨ len = 0 then
    .error (ModuleError.MemoryError "Null pointer or zero length")
  else
    match m.memRead s ptr len with
    | .error e => .error (ModuleError.MemoryError ("Memory read failed: " ++ e))
    | .ok buffer =>
      match MemoryOps.dealloc m s ptr len with
      | .error e => .error e
      | .ok s2 => .ok (s2, buffer)

/-- Cooperative memory bridge, from `memory.rs` lines 179-183; the awaited
variants of the same primitives, so the functional content coincides with
`MemoryOps`. -/
structure AsyncMemoryOps (σ : Type) where
  memRead : σ → Nat → Nat → Except String (List Nat)
  memWrite : σ → Nat → List Nat → Except String σ
  allocFn : σ → Nat → Except String (σ × Nat)
  deallocFn : σ → Nat → Nat → Except String σ

/-- Guest deallocation, from `memory.rs` lines 270-280. -/
def AsyncMemoryOps.dealloc {σ : Type} (m : AsyncMemoryOps σ) (s : σ)
    (ptr size : Nat) : Except ModuleError σ :=
  match m.deallocFn s ptr size with
  | .ok s2 => .ok s2
  | .error e => .error (ModuleError.MemoryError ("Guest dealloc failed: " ++ e))

/-- Read from guest memory, from `memory.rs` lines 317-332: the same guard,
copy and consume sequence as the synchronous variant. -/
def AsyncMemoryOps.read {σ : Type} (m : AsyncMemoryOps σ) (s : σ) (ptr len : Nat) :
    Except ModuleError (σ × List Nat) :=
  if ptr = 0 ∨ len = 0 then
    .error (ModuleError.MemoryError "Null pointer or zero length")
  else
    match m.memRead s ptr len with
    | .error e => .error (ModuleError.MemoryError ("Memory read failed: " ++ e))
    | .ok buffer =>
      match AsyncMemoryOps.dealloc m s ptr len with
      | .error e => .error e
      | .ok s2 => .ok (s2, buffer)

/-- Reference guest state: the linear memory bytes, the currently live
allocations, and a log of completed `guest_dealloc` calls used to observe
how often the bridge deallocates. -/
structure GuestState where
  mem : List Nat
  live : List (Nat × Nat)
  deallocLog : List (Nat × Nat)
deriving DecidableEq, Repr

/-- Modelled from the spec: the guest-side allocator contract of §4.2/§6.2
(`guest_alloc`/`guest_dealloc` exports are guest code outside this
repository).  Reads and writes are bounds-checked against the linear
memory; deallocating a region succeeds exactly when it is a live
allocation, removes it, and records the call. -/
def refMemoryOps : MemoryOps GuestState :=
  { memRead := fun s ptr len =>
      if ptr + len ≤ s.mem.length then .ok ((s.mem.drop ptr).take len)
      else .error "out of bounds",
    memWrite := fun s ptr data =>
      if ptr + data.length ≤ s.mem.length then
        .ok { s with mem := s.mem.take ptr ++ data ++ s.mem.drop (ptr + data.length) }
      else .error "out of bounds",
    allocFn := fun s size =>
      .ok ({ s with mem := s.mem ++ List.replicate size 0,
                    live := s.live ++ [(s.mem.length, size)] }, s.mem.length),
    deallocFn := fun s ptr len =>
      if (ptr, len) ∈ s.live then
        .ok { s with live := s.live.erase (ptr, len),
                     deallocLog := s.deallocLog ++ [(ptr, len)] }
      else .error "not an allocated region" }

/-- Modelled from the spec: the cooperative view of the same guest allocator
contract. -/
def refAsyncMemoryOps : AsyncMemoryOps GuestState :=
  { memRead := refMemoryOps.memRead,
    memWrite := refMemoryOps.memWrite,
    allocFn := refMemoryOps.allocFn,
    deallocFn := refMemoryOps.deallocFn }

/-- Sequential positional extraction generated by `impl_from_fn_input`
(`input.rs` lines 276-298): for an arity-`n` tuple it runs
`input.get_arg(0)?, …, input.get_arg(n-1)?`, stopping at the first error.
The decoder list carries one serde decoder per native parameter, in
parameter order; `i` is the index of the next position. -/
def fromFnInputAux {α : Type} (inp : FnInput) :
    List (Json → Except String α) → Nat → Except FnError (List α)
  | [], _ => .ok []
  | d :: ds, i =>
    match FnInput.get_arg d inp i with
    | .error e => .error e
    | .ok v =>
      match fromFnInputAux inp ds (i + 1) with
      | .error e => .error e
      | .ok vs => .ok (v :: vs)

/-- Entry point of the generated `from_fn_input`, starting at position 0. -/
def from_fn_input {α : Type} (decs : List (Json → Except String α))
    (inp : FnInput) : Except FnError (List α) :=
  fromFnInputAux inp decs 0

/-- Dispatch of a registered host function, from `host_fns.rs` lines 45-73
(`impl_host_fn_callable`, arities 1-8, and the arity-0 instance at lines
35-43 as the empty decoder list): extract one positional per parameter; on
extraction failure return `FnResult::err(&e)`; otherwise run the native
callable, whose outcome `IntoFnResult` already turned into a total
`List α → FnResult`.  The function is total in the embedding, as the source
`call` is: no path propagates a host-runtime fault. -/
def HostFnWrapper.call {α : Type} (decs : List (Json → Except String α))
    (f : List α → FnResult) (inp : FnInput) : FnResult :=
  match from_fn_input decs inp with
  | .error e => FnResult.errOf e
  | .ok args => f args

/-- Materialized runtime state of a `Module`, from `module.rs` lines 45-58.
The opaque wasmtime handles held in `Option` fields are abstract tokens;
`inst` models the source field `instance` (a reserved word here).  The
builder-populated data the lifecycle logic never branches on is reduced to
the binary. -/
structure ModuleSt where
  binary : List Nat
  engine : Option Nat
  linker : Option Nat
  instance_pre : Option Nat
  store : Option Nat
  inst : Option Nat
deriving DecidableEq, Repr

/-- Instantiation test, from `module.rs` lines 126-128: `instance.is_some()`. -/
def ModuleSt.is_instantiated (m : ModuleSt) : Bool :=
  m.inst.isSome

/-- Materialized runtime state of an `AsyncModule`, from `module.rs` lines
447-461; identical to `ModuleSt` plus the fuel yield interval. -/
structure AsyncModuleSt where
  binary : List Nat
  fuel_yield_interval : Option Nat
  engine : Option Nat
  linker : Option Nat
  instance_pre : Option Nat
  store : Option Nat
  inst : Option Nat
deriving DecidableEq, Repr

/-- Instantiation test, from `module.rs` lines 531-533. -/
def AsyncModuleSt.is_instantiated (m : AsyncModuleSt) : Bool :=
  m.inst.isSome

/-- Effects invoked by `instantiate` against the engine and the guest, each
an abstract fallible primitive: engine plus populated linker creation
(`module.rs` lines 204-248), adding the WASI layer to the linker, compiling
the binary, building the pre-instance (lines 251-269), creating a store
(lines 271-284), materializing the instance (lines 286-292), and running
`_initialize` / `initialize` (lines 296-332). -/
structure InstFx where
  engineLinkerNew : Except String (Nat × Nat)
  addWasi : Nat → Except String Unit
  compile : List Nat → Except String Nat
  instantiatePre : Nat → Nat → Except String Nat
  storeNew : Nat
  instantiateFromPre : Nat → Nat → Except String Nat
  runInitializers : Nat → Nat → Except ModuleError Unit

/-- Additional store preparation of the cooperative variant, from
`module.rs` lines 706-712: `set_fuel(u64::MAX)` (whose failure maps to
`FuelNotEnabled`) and the fuel yield interval installation. -/
structure AsyncFx where
  setFuel : Except Unit Unit
  setYieldInterval : Nat → Except String Unit

/-- Engine/linker phase of `instantiate`, from `module.rs` lines 204-249:
created only when absent; when present the existing handles are reused (the
impossible mixed state models the source `.expect` panic as an error). -/
def stepEngine (fx : InstFx) (engine linker : Option Nat) :
    Except ModuleError (Nat × Nat) :=
  if engine.isNone then
    match fx.engineLinkerNew with
    | .ok p => .ok p
    | .error e => .error (ModuleError.WasmtimeError e)
  else
    match engine, linker with
    | some e, some l => .ok (e, l)
    | _, _ => .error (ModuleError.RuntimeError "linker should be initialized")

/-- Pre-instantiation phase of `instantiate`, from `module.rs` lines
251-269: WASI is added to the linker, the binary compiled and the
pre-instance built, only when no pre-instance is held yet. -/
def stepPre (fx : InstFx) (instance_pre : Option Nat) (binary : List Nat)
    (linker : Nat) : Except ModuleError Nat :=
  if instance_pre.isNone then
    match fx.addWasi linker with
    | .error e => .error (ModuleError.WasmtimeError e)
    | .ok _ =>
      match fx.compile binary with
      | .error e =>
        .error (ModuleError.InstantiationError ("failed to compile module: " ++ e))
      | .ok wasmMod =>
        match fx.instantiatePre linker wasmMod with
        | .error e =>
          .error (ModuleError.InstantiationError ("failed to create instance pre: " ++ e))
        | .ok pre => .ok pre
  else
    match instance_pre with
    | some pre => .ok pre
    | none => .error (ModuleError.RuntimeError "instance_pre should be initialized")

/-- Synchronous instantiation, from `module.rs` lines 199-335: refuse when
already instantiated, then engine/linker phase, pre-instance phase, store
creation, instance materialization, initializers, and only then publish the
updated handles. -/
def Module.instantiate (fx : InstFx) (m : ModuleSt) : Except ModuleError ModuleSt :=
  if m.is_instantiated then .error ModuleError.AlreadyInstantiated
  else
    match stepEngine fx m.engine m.linker with
    | .error e => .error e
    | .ok (engine, linker) =>
      match stepPre fx m.instance_pre m.binary linker with
      | .error e => .error e
      | .ok pre =>
        match fx.instantiateFromPre pre fx.storeNew with
        | .error e =>
          .error (ModuleError.InstantiationError ("failed to instantiate module: " ++ e))
        | .ok inst =>
          match fx.runInitializers inst fx.storeNew with
          | .error e => .error e
          | .ok _ =>
            .ok { m with engine := some engine, linker := some linker,
                         instance_pre := some pre, store := some fx.storeNew,
                         inst := some inst }

/-- Cooperative instantiation, from `module.rs` lines 604-765: the same
skeleton with the forced-fuel store preparation before materializing the
instance. -/
def AsyncModule.instantiate (fx : InstFx) (afx : AsyncFx) (m : AsyncModuleSt) :
    Except ModuleError AsyncModuleSt :=
  if m.is_instantiated then .error ModuleError.AlreadyInstantiated
  else
    match stepEngine fx m.engine m.linker with
    | .error e => .error e
    | .ok (engine, linker) =>
      match stepPre fx m.instance_pre m.binary linker with
      | .error e => .error e
      | .ok pre =>
        match afx.setFuel with
        | .error _ => .error ModuleError.FuelNotEnabled
        | .ok _ =>
          match afx.setYieldInterval (m.fuel_yield_interval.getD 10000) with
          | .error e => .error (ModuleError.WasmtimeError e)
          | .ok _ =>
            match fx.instantiateFromPre pre fx.storeNew with
            | .error e =>
              .error (ModuleError.InstantiationError ("failed to instantiate module: " ++ e))
            | .ok inst =>
              match fx.runInitializers inst fx.storeNew with
              | .error e => .error e
              | .ok _ =>
                .ok { m with engine := some engine, linker := some linker,
                             instance_pre := some pre, store := some fx.storeNew,
                             inst := some inst }

/-- Effects record in which every engine primitive succeeds, for concrete
evaluation of the lifecycle. -/
def fxAllOk : InstFx :=
  { engineLinkerNew := .ok (1, 2),
    addWasi := fun _ => .ok (),
    compile := fun _ => .ok 3,
    instantiatePre := fun _ _ => .ok 4,
    storeNew := 5,
    instantiateFromPre := fun _ _ => .ok 6,
    runInitializers := fun _ _ => .ok () }

/-- Store preparation that succeeds, for concrete evaluation. -/
def afxAllOk : AsyncFx :=
  { setFuel := .ok (), setYieldInterval := fun _ => .ok () }

/-- Pool operations observable on the shared deque, from `pool.rs`: a
completed blocking `lease` (lines 82-94), a `try_lease` (lines 100-112,
which completes even on an empty deque, returning no module), and the
return path (`return_module`, lines 118-124) as invoked by
`ModuleLease::release` or `Drop` (lines 151-178) on the outstanding lease
at a given index.  A released lease gives its module up (`Option::take`),
so only outstanding leases can be released. -/
inductive PoolOp where
  | lease : PoolOp
  | tryLease : PoolOp
  | release : Nat → PoolOp
deriving DecidableEq, Repr

/-- Pool state: the deque of queued module handles plus the modules held by
outstanding leases. -/
structure PoolSt where
  queued : List Nat
  leased : List Nat
deriving DecidableEq, Repr

/-- One completed pool transition.  `lease` blocks on an empty deque (no
completed transition, hence `none`); both lease forms remove exactly the
head (`pop_front`); a return appends exactly one module to the back
(`push_back`). -/
def poolStep (s : PoolSt) : PoolOp → Option PoolSt
  | PoolOp.lease =>
    match s.queued with
    | [] => none
    | m :: rest => some ⟨rest, s.leased ++ [m]⟩
  | PoolOp.tryLease =>
    match s.queued with
    | [] => some s
    | m :: rest => some ⟨rest, s.leased ++ [m]⟩
  | PoolOp.release k =>
    match s.leased[k]? with
    | none => none
    | some m => some ⟨s.queued ++ [m], s.leased.eraseIdx k⟩

/-- A sequence of completed pool operations, run left to right. -/
def poolRun (s : PoolSt) : List PoolOp → Option PoolSt
  | [] => some s
  | op :: ops =>
    match poolStep s op with
    | none => none
    | some s2 => poolRun s2 ops

/-- Pool construction, from `pool.rs` lines 64-68: the deque starts holding
all the instantiated modules and no lease is outstanding. -/
def ModulePool.new (modules : List Nat) : PoolSt :=
  ⟨modules, []⟩

/-- Socket action kinds, from `config.rs` lines 310-321. -/
inductive ModuleSocketAddrAction where
  | TcpBind : ModuleSocketAddrAction
  | TcpConnect : ModuleSocketAddrAction
  | UdpBind : ModuleSocketAddrAction
  | UdpConnect : ModuleSocketAddrAction
  | UdpOutgoingDatagram : ModuleSocketAddrAction
deriving DecidableEq, Repr

/-- The engine's socket action kinds (`wasmtime_wasi::SocketAddrUse`),
mirrored from `config.rs` lines 323-345. -/
inductive SocketAddrUse where
  | TcpBind : SocketAddrUse
  | TcpConnect : SocketAddrUse
  | UdpBind : SocketAddrUse
  | UdpConnect : SocketAddrUse
  | UdpOutgoingDatagram : SocketAddrUse
deriving DecidableEq, Repr

/-- Socket address, abstracted to an IP rendering and a port. -/
structure SocketAddr where
  ip : String
  port : Nat
deriving DecidableEq, Repr

/-- Conversion into the engine kind, from `config.rs` lines 323-333. -/
def socketAddrUseOfAction : ModuleSocketAddrAction → SocketAddrUse
  | ModuleSocketAddrAction.TcpBind => SocketAddrUse.TcpBind
  | ModuleSocketAddrAction.TcpConnect => SocketAddrUse.TcpConnect
  | ModuleSocketAddrAction.UdpBind => SocketAddrUse.UdpBind
  | ModuleSocketAddrAction.UdpConnect => SocketAddrUse.UdpConnect
  | ModuleSocketAddrAction.UdpOutgoingDatagram => SocketAddrUse.UdpOutgoingDatagram

/-- Conversion from the engine kind, from `config.rs` lines 335-345. -/
def actionOfSocketAddrUse : SocketAddrUse → ModuleSocketAddrAction
  | SocketAddrUse.TcpBind => ModuleSocketAddrAction.TcpBind
  | SocketAddrUse.TcpConnect => ModuleSocketAddrAction.TcpConnect
  | SocketAddrUse.UdpBind => ModuleSocketAddrAction.UdpBind
  | SocketAddrUse.UdpConnect => ModuleSocketAddrAction.UdpConnect
  | SocketAddrUse.UdpOutgoingDatagram => ModuleSocketAddrAction.UdpOutgoingDatagram

/-- Network configuration, from `config.rs` lines 348-363.  The async
`socket_check` future is immediately ready in the source defaults
(`Box::pin(async { bool })`), so the predicate is embedded by its resolved
boolean. -/
structure ModuleNetwork where
  allow_tcp : Bool
  allow_udp : Bool
  allow_dns : Bool
  socket_check : SocketAddr → ModuleSocketAddrAction → Bool

/-- Default network configuration, from `config.rs` lines 367-374 (also
`Default::default`, lines 386-390): every family toggle on, yet the
per-address predicate constantly `false`. -/
def ModuleNetwork.new : ModuleNetwork :=
  { allow_tcp := true, allow_udp := true, allow_dns := true,
    socket_check := fun _ _ => false }

/-- Host-inheriting network configuration, from `config.rs` lines 377-383. -/
def ModuleNetwork.inherit (_n : ModuleNetwork) : ModuleNetwork :=
  { allow_tcp := true, allow_udp := true, allow_dns := true,
    socket_check := fun _ _ => true }

/-- Sandbox declaration, from `config.rs` lines 395-404. -/
structure ModuleEnv where
  args : Option (List String)
  env : Option (List (String × String))
  mount : Option (List (String × String))
  network : ModuleNetwork

/-- Empty sandbox declaration, from `config.rs` lines 408-415 (also
`Default::default`, lines 618-622): the network field is
`ModuleNetwork::default()`, that is `ModuleNetwork::new()`. -/
def ModuleEnv.new : ModuleEnv :=
  { args := none, env := none, mount := none, network := ModuleNetwork.new }

/-- Network inheritance on the environment, from `config.rs` lines 438-441. -/
def ModuleEnv.inherit_network (e : ModuleEnv) : ModuleEnv :=
  { e with network := e.network.inherit }

/-- The translated engine context, the image of
`From<ModuleEnv> for WasiP1Ctx`: the fields the builder receives. -/
structure WasiCtxView where
  args : List String
  envVars : List (String × String)
  preopens : List (String × String)
  allowTcp : Bool
  allowUdp : Bool
  allowDns : Bool
  socketAddrCheck : SocketAddr → SocketAddrUse → Bool

/-- Translation of the sandbox declaration into the engine context, from
`config.rs` lines 624-661: argv, env map and mounts pass through when
present; the three family toggles copy the booleans; the installed
per-address gate is the declared `socket_check` composed with the kind
conversion (`action.into()`, line 656). -/
def wasiCtxOfModuleEnv (env : ModuleEnv) : WasiCtxView :=
  { args := env.args.getD [],
    envVars := env.env.getD [],
    preopens := env.mount.getD [],
    allowTcp := env.network.allow_tcp,
    allowUdp := env.network.allow_udp,
    allowDns := env.network.allow_dns,
    socketAddrCheck := fun addr action =>
      env.network.socket_check addr (actionOfSocketAddrUse action) }

/-- C1: the claim quantifies over every `FnResult` constructed through the
public API, but `FnResult::ok` applied to any value that serializes to JSON
`null` (for instance `FnResult::ok(())`) yields `Data { value: Some(Null) }`,
which encodes to `{"object":"data","value":null}` and decodes to
`Data { value: None }`, not the original. -/
theorem codec_round_trip_counterexample :
    FnResult.from_bytes (FnResult.to_bytes (FnResult.ok Json.null)) =
      .ok (FnResult.Data Option.none) ∧
    FnResult.ok Json.null ≠ FnResult.Data Option.none := by
  constructor
  · rfl
  · intro h
    cases h

/-- C1 (amended): decoding the bytes produced by encoding restores the
original value for every `FnInput`, and for every `FnResult` other than
`Data { value: Some(Null) }`; that one value decodes to `Data { value: None }`
because serializing it writes `value: null`, which deserializes into the
`Option` field as `None`. -/
theorem codec_round_trip :
    (∀ i : FnInput, FnInput.from_bytes (FnInput.to_bytes i) = .ok i) ∧
    (∀ r : FnResult, r ≠ FnResult.Data (some Json.null) →
      FnResult.from_bytes (FnResult.to_bytes r) = .ok r) := by
  constructor
  · intro i
    obtain ⟨args, kwargs⟩ := i
    cases args <;> cases kwargs <;> rfl
  · intro r hr
    match r with
    | .Data Option.none => rfl
    | .Error e => rfl
    | .Data (some v) =>
      cases v with
      | null => exact absurd rfl hr
      | bool b => rfl
      | num n => rfl
      | str s => rfl
      | arr xs => rfl
      | obj kvs => rfl

/-- Witness for C1 (amended) at `FnResult.none` and at a one-argument
`FnInput`. -/
theorem codec_round_trip_witness :
    FnResult.none ≠ FnResult.Data (some Json.null) ∧
    FnResult.from_bytes (FnResult.to_bytes FnResult.none) = .ok FnResult.none ∧
    FnInput.from_bytes (FnInput.to_bytes (FnInput.new.with_arg (Json.num 7))) =
      .ok (FnInput.new.with_arg (Json.num 7)) := by
  refine ⟨?_, ?_, ?_⟩
  · intro h
    cases h
  · exact codec_round_trip.2 FnResult.none (by intro h; cases h)
  · exact codec_round_trip.1 (FnInput.new.with_arg (Json.num 7))

/-- C3: the claim asserts that the encoding of `FnResult::none()` omits the
`value` field entirely, but `value` has no `skip_serializing_if` attribute in
`result.rs`, so the encoder emits it bound to JSON `null`: the field is
present. -/
theorem none_encoding_counterexample :
    FnResult.to_bytes FnResult.none =
      Json.obj [("object", Json.str "data"), ("value", Json.null)] ∧
    hasField "value" (FnResult.to_bytes FnResult.none) = true := by
  exact ⟨rfl, rfl⟩

/-- C3 (amended): encoding `FnResult::none()` produces a JSON object whose
`object` discriminator equals `data` and whose `value` field is present and
bound to JSON `null` (decoding it still restores `none()`). -/
theorem none_encoding :
    hasField "object" (FnResult.to_bytes FnResult.none) = true ∧
    lookupField "object"
      [("object", Json.str "data"), ("value", Json.null)] = some (Json.str "data") ∧
    FnResult.to_bytes FnResult.none =
      Json.obj [("object", Json.str "data"), ("value", Json.null)] ∧
    hasField "value" (FnResult.to_bytes FnResult.none) = true ∧
    FnResult.from_bytes (FnResult.to_bytes FnResult.none) = .ok FnResult.none := by
  exact ⟨rfl, rfl, rfl, rfl, rfl⟩

/-- C6: whenever the positional sequence is absent or no longer than the
requested index, `get_arg` returns exactly the `MissingArg` error with
message `Missing arg in position N`; and `get_arg` cannot distinguish an
absent sequence from an empty one. -/
theorem get_arg_missing {α : Type} (dec : Json → Except String α)
    (inp : FnInput) (index : Nat)
    (h : ∀ l, inp.args = some l → l.length ≤ index) :
    FnInput.get_arg dec inp index =
      .error ⟨"MissingArg", "Missing arg in position " ++ toString index⟩ ∧
    ∀ (kw : Option (List (String × Json))) (j : Nat),
      FnInput.get_arg dec ⟨none, kw⟩ j = FnInput.get_arg dec ⟨some [], kw⟩ j := by
  constructor
  · match hargs : inp.args with
    | none => simp [FnInput.get_arg, hargs]
    | some l =>
      have hlen := h l hargs
      simp [FnInput.get_arg, hargs]
      omega
  · intro kw j
    simp [FnInput.get_arg]

/-- Witness for C6 at an empty input and index 2. -/
theorem get_arg_missing_witness :
    FnInput.get_arg (fun v => Except.ok (α := Json) v) FnInput.new 2 =
      .error ⟨"MissingArg", "Missing arg in position 2"⟩ := by
  exact (get_arg_missing _ FnInput.new 2 (by intro l hl; cases hl)).1

/-- Shifted disjoint bit ranges combine additively: with the low `32` bits
clear on the left and the right below `2 ^ 32`, bitwise or is addition. -/
theorem shiftLeft_lor_eq_add (p l : Nat) (hl : l < 2 ^ 32) :
    (p <<< 32) ||| l = 2 ^ 32 * p + l := by
  apply Nat.eq_of_testBit_eq
  intro i
  rw [Nat.testBit_lor, Nat.testBit_shiftLeft, Nat.testBit_mul_pow_two_add p hl i]
  by_cases hi : i < 32
  · have hge : ¬ (i ≥ 32) := by omega
    simp [hi, hge]
  · have hge : i ≥ 32 := by omega
    have hfalse : l.testBit i = false :=
      Nat.testBit_lt_two_pow
        (lt_of_lt_of_le hl (Nat.pow_le_pow_right (by norm_num) hge))
    simp [hi, hge, hfalse]

/-- Masking with `0xFFFFFFFF` is reduction modulo `2 ^ 32`. -/
theorem and_mask32 (x : Nat) : x &&& 0xFFFFFFFF = x % 2 ^ 32 := by
  have hmask : (0xFFFFFFFF : Nat) = 2 ^ 32 - 1 := by norm_num
  apply Nat.eq_of_testBit_eq
  intro i
  rw [Nat.testBit_and, hmask, Nat.testBit_two_pow_sub_one, Nat.testBit_mod_two_pow]
  exact Bool.and_comm _ _

/-- C2: for every pointer and length below `2 ^ 32`, unpacking the packed
64-bit descriptor returns the original pair. -/
theorem pack_unpack_round_trip (p l : Nat) (hp : p < 2 ^ 32) (hl : l < 2 ^ 32) :
    unpack_ptr (pack_ptr p l) = (p, l) := by
  have hlt : 2 ^ 32 * p + l < 2 ^ 64 := by
    have h1 : 2 ^ 32 * p ≤ 2 ^ 32 * (2 ^ 32 - 1) :=
      Nat.mul_le_mul_left _ (by omega)
    have h2 : 2 ^ 32 * (2 ^ 32 - 1) + 2 ^ 32 = 2 ^ 64 := by norm_num
    omega
  have hfst : (2 ^ 32 * p + l) >>> 32 % 2 ^ 32 = p := by
    rw [Nat.shiftRight_eq_div_pow, Nat.mul_add_div (by norm_num),
      Nat.div_eq_of_lt hl]
    simpa using Nat.mod_eq_of_lt hp
  have hsnd : (2 ^ 32 * p + l) &&& 0xFFFFFFFF = l := by
    rw [and_mask32, Nat.mul_add_mod]
    exact Nat.mod_eq_of_lt hl
  simp only [pack_ptr, unpack_ptr, shiftLeft_lor_eq_add p l hl,
    Nat.mod_eq_of_lt hlt, hfst, hsnd]

/-- Witness for C2 at the pair `(3, 5)`. -/
theorem pack_unpack_round_trip_witness :
    (3 : Nat) < 2 ^ 32 ∧ (5 : Nat) < 2 ^ 32 ∧ unpack_ptr (pack_ptr 3 5) = (3, 5) :=
  ⟨by norm_num, by norm_num, pack_unpack_round_trip 3 5 (by norm_num) (by norm_num)⟩

/-- C4: a read with `ptr == 0` or `len == 0` returns the `MemoryError`
without touching guest state, in both bridge variants.  The result is
independent of the guest primitives `m`, `m2` and of the guest state `s`
(all universally quantified and unused), so no bytes are copied and neither
`guest_alloc` nor `guest_dealloc` is invoked. -/
theorem read_rejects_degenerate {σ : Type} (m : MemoryOps σ)
    (m2 : AsyncMemoryOps σ) (s : σ) (ptr len : Nat) (h : ptr = 0 ∨ len = 0) :
    MemoryOps.read m s ptr len =
      .error (ModuleError.MemoryError "Null pointer or zero length") ∧
    AsyncMemoryOps.read m2 s ptr len =
      .error (ModuleError.MemoryError "Null pointer or zero length") := by
  constructor
  · unfold MemoryOps.read
    rw [if_pos h]
  · unfold AsyncMemoryOps.read
    rw [if_pos h]

/-- Witness for C4 at `ptr = 0`, `len = 5` on the reference guest. -/
theorem read_rejects_degenerate_witness :
    MemoryOps.read refMemoryOps ⟨[], [], []⟩ 0 5 =
      .error (ModuleError.MemoryError "Null pointer or zero length") :=
  (read_rejects_degenerate refMemoryOps refAsyncMemoryOps ⟨[], [], []⟩ 0 5
    (Or.inl rfl)).1

/-- C5: a successful read returns exactly the `len` bytes at `ptr`, leaves
the memory untouched, and has performed `guest_dealloc(ptr, len)` exactly
once (the dealloc log grows by that one entry and the region leaves the
live set, so deallocating the same region again errors); a read whose copy
step fails returns the copy error, and since the bridge short-circuits
before its dealloc step, no guest state transition is produced at all. -/
theorem read_consumes (s : GuestState) (ptr len : Nat) :
    (∀ out : GuestState × List Nat,
      MemoryOps.read refMemoryOps s ptr len = .ok out →
        out.2 = (s.mem.drop ptr).take len ∧
        out.2.length = len ∧
        out.1.mem = s.mem ∧
        out.1.deallocLog = s.deallocLog ++ [(ptr, len)] ∧
        out.1.live = s.live.erase (ptr, len) ∧
        (s.live.Nodup → (ptr, len) ∉ out.1.live)) ∧
    (ptr ≠ 0 → len ≠ 0 → s.mem.length < ptr + len →
      MemoryOps.read refMemoryOps s ptr len =
        .error (ModuleError.MemoryError "Memory read failed: out of bounds")) := by
  constructor
  · intro out h
    unfold MemoryOps.read MemoryOps.dealloc refMemoryOps at h
    simp only at h
    by_cases h0 : ptr = 0 ∨ len = 0
    · rw [if_pos h0] at h
      cases h
    · rw [if_neg h0] at h
      by_cases hb : ptr + len ≤ s.mem.length
      · rw [if_pos hb] at h
        by_cases hl : (ptr, len) ∈ s.live
        · rw [if_pos hl] at h
          injection h with h
          subst h
          refine ⟨rfl, ?_, rfl, rfl, rfl, ?_⟩
          · simp [List.length_take, List.length_drop]
            omega
          · intro hnd
            exact hnd.not_mem_erase
        · rw [if_neg hl] at h
          cases h
      · rw [if_neg hb] at h
        cases h
  · intro hp hl hb
    unfold MemoryOps.read refMemoryOps
    simp only
    rw [if_neg (by omega), if_neg (by omega)]
    rfl

/-- Witness for C5: reading region `(1, 2)` of a three-byte guest memory
succeeds, returns the two bytes, consumes the allocation and logs exactly
one dealloc. -/
theorem read_consumes_witness :
    ([20, 30] : List Nat) = (([10, 20, 30] : List Nat).drop 1).take 2 ∧
    ([20, 30] : List Nat).length = 2 ∧
    ([10, 20, 30] : List Nat) = [10, 20, 30] ∧
    ([] ++ [(1, 2)] : List (Nat × Nat)) = [] ++ [(1, 2)] ∧
    ([] : List (Nat × Nat)) = ([(1, 2)] : List (Nat × Nat)).erase (1, 2) ∧
    (([(1, 2)] : List (Nat × Nat)).Nodup → (1, 2) ∉ ([] : List (Nat × Nat))) := by
  have happ := (read_consumes ⟨[10, 20, 30], [(1, 2)], []⟩ 1 2).1
    (⟨⟨[10, 20, 30], [], [(1, 2)]⟩, [20, 30]⟩) rfl
  exact happ

/-- Positional extraction against a too-short argument list fails with the
`MissingArg` error at the first unsupplied position, provided every decoder
for a supplied position succeeds. -/
theorem fromFnInputAux_missing {α : Type} (vals : List Json)
    (kw : Option (List (String × Json))) :
    ∀ (ds : List (Json → Except String α)) (i : Nat),
      i ≤ vals.length → vals.length < i + ds.length →
      (∀ (j : Nat) (v : Json) (d : Json → Except String α),
        vals[i + j]? = some v → ds[j]? = some d → (d v).isOk = true) →
      fromFnInputAux ⟨some vals, kw⟩ ds i =
        .error ⟨"MissingArg", "Missing arg in position " ++ toString vals.length⟩
  | [], i, hle, hlt, _ => absurd hlt (by simp only [List.length_nil]; omega)
  | d :: ds, i, hle, hlt, hdec => by
    by_cases hi : i < vals.length
    · have hv : vals[i]? = some vals[i] := List.getElem?_eq_getElem hi
      have h0 : (d vals[i]).isOk = true := by
        refine hdec 0 vals[i] d ?_ (by simp)
        simp only [Nat.add_zero]
        exact hv
      obtain ⟨w, hw⟩ : ∃ w, d vals[i] = .ok w := by
        cases hdv : d vals[i] with
        | ok w => exact ⟨w, rfl⟩
        | error e => rw [hdv] at h0; simp [Except.isOk, Except.toBool] at h0
      have hrec := fromFnInputAux_missing vals kw ds (i + 1) (by omega)
        (by simp only [List.length_cons] at hlt; omega)
        (fun j v dj hval hdj => hdec (j + 1) v dj
          (by rw [show i + (j + 1) = i + 1 + j from by omega]; exact hval)
          (by simpa using hdj))
      simp only [fromFnInputAux, FnInput.get_arg]
      rw [dif_pos hi]
      rw [List.get_eq_getElem, hw, hrec]
    · have hieq : i = vals.length := by omega
      subst hieq
      simp only [fromFnInputAux, FnInput.get_arg]
      rw [dif_neg (by omega)]

/-- C7 (amended): when the input supplies fewer positionals than the
registered arity (and each supplied positional decodes), dispatch returns
`FnResult::Error` rather than trapping, but the carried `FnError` is the
re-wrapped `FnResult::err(&e)` form: its `type` is
`any::type_name::<FnError>()` and its `message` is the `Display` rendering
`MissingArg: Missing arg in position k`, with `k` the number of supplied
positionals; an absent positional sequence behaves as an empty one. -/
theorem host_call_missing {α : Type} (decs : List (Json → Except String α))
    (f : List α → FnResult) (vals : List Json)
    (kw : Option (List (String × Json))) (hlen : vals.length < decs.length)
    (hdec : ∀ (j : Nat) (v : Json) (d : Json → Except String α),
      vals[j]? = some v → decs[j]? = some d → (d v).isOk = true) :
    HostFnWrapper.call decs f ⟨some vals, kw⟩ =
      FnResult.errOf ⟨"MissingArg", "Missing arg in position " ++ toString vals.length⟩ ∧
    (HostFnWrapper.call decs f ⟨some vals, kw⟩).is_error = true ∧
    HostFnWrapper.call decs f ⟨none, kw⟩ =
      FnResult.errOf ⟨"MissingArg", "Missing arg in position 0"⟩ := by
  have hmain : from_fn_input decs ⟨some vals, kw⟩ =
      .error ⟨"MissingArg", "Missing arg in position " ++ toString vals.length⟩ := by
    unfold from_fn_input
    exact fromFnInputAux_missing vals kw decs 0 (by omega) (by omega)
      (fun j v d h1 h2 => hdec j v d (by simpa using h1) h2)
  refine ⟨?_, ?_, ?_⟩
  · unfold HostFnWrapper.call
    rw [hmain]
  · unfold HostFnWrapper.call
    rw [hmain]
    rfl
  · match decs, hlen with
    | d :: ds, _ =>
      simp only [HostFnWrapper.call, from_fn_input, fromFnInputAux, FnInput.get_arg]
      rfl

/-- C7: the claim asserts that a failing extraction returns `FnResult::Error`
carrying that extraction `FnError` (so the guest would observe
`FnError { type: "MissingArg", … }`), but `host_fns.rs` line 58 routes the
extraction error through `FnResult::err(&e)`, which re-wraps it with
`type = any::type_name::<FnError>() = "binmod_core::error::FnError"` and
`message = e.to_string()`: at arity 1 on an empty input the dispatched
result differs from the claimed one. -/
theorem host_call_counterexample :
    HostFnWrapper.call (α := Json) [fun v => Except.ok v]
        (fun _ => FnResult.none) FnInput.new =
      FnResult.Error ⟨fnErrorTypeName, "MissingArg: Missing arg in position 0"⟩ ∧
    FnResult.Error (⟨fnErrorTypeName, "MissingArg: Missing arg in position 0"⟩ : FnError) ≠
      FnResult.Error ⟨"MissingArg", "Missing arg in position 0"⟩ := by
  constructor
  · rfl
  · intro h
    injection h with h2
    have h3 := congrArg FnError.error_type h2
    exact absurd h3 (by decide)

/-- Witness for C7 (amended): an arity-2 registration invoked with a single
positional yields the re-wrapped `MissingArg` error for position 1. -/
theorem host_call_missing_witness :
    HostFnWrapper.call (α := Json) [fun v => Except.ok v, fun v => Except.ok v]
        (fun _ => FnResult.none) ⟨some [Json.num 1], Option.none⟩ =
      FnResult.errOf ⟨"MissingArg", "Missing arg in position 1"⟩ := by
  refine (host_call_missing [fun v => Except.ok v, fun v => Except.ok v]
    (fun _ => FnResult.none) [Json.num 1] Option.none (by norm_num) ?_).1
  intro j v d h1 h2
  match j with
  | 0 =>
    simp only [List.getElem?_cons_zero, Option.some.injEq] at h1 h2
    rw [← h2, ← h1]
    rfl
  | j + 1 =>
    simp at h1

/-- C8: after a successful `instantiate` the module reports instantiated,
and a second `instantiate` — under any engine effects whatsoever — returns
`AlreadyInstantiated` from the leading guard.  The error is produced before
any effect of `fx2` is consulted (the result is independent of `fx2`), so
no engine, linker, store or instance is created or replaced by the failed
second call, in both the synchronous and the cooperative variant. -/
theorem instantiate_idempotence :
    (∀ (fx : InstFx) (m m2 : ModuleSt), Module.instantiate fx m = .ok m2 →
      m2.is_instantiated = true ∧
      ∀ fx2 : InstFx,
        Module.instantiate fx2 m2 = .error ModuleError.AlreadyInstantiated) ∧
    (∀ (fx : InstFx) (afx : AsyncFx) (m m2 : AsyncModuleSt),
      AsyncModule.instantiate fx afx m = .ok m2 →
      m2.is_instantiated = true ∧
      ∀ (fx2 : InstFx) (afx2 : AsyncFx),
        AsyncModule.instantiate fx2 afx2 m2 = .error ModuleError.AlreadyInstantiated) := by
  constructor
  · intro fx m m2 h
    unfold Module.instantiate at h
    split at h
    · exact Except.noConfusion h
    · split at h
      · exact Except.noConfusion h
      · split at h
        · exact Except.noConfusion h
        · split at h
          · exact Except.noConfusion h
          · split at h
            · exact Except.noConfusion h
            · injection h with h
              subst h
              refine ⟨rfl, fun fx2 => ?_⟩
              simp [Module.instantiate, ModuleSt.is_instantiated]
  · intro fx afx m m2 h
    unfold AsyncModule.instantiate at h
    split at h
    · exact Except.noConfusion h
    · split at h
      · exact Except.noConfusion h
      · split at h
        · exact Except.noConfusion h
        · split at h
          · exact Except.noConfusion h
          · split at h
            · exact Except.noConfusion h
            · split at h
              · exact Except.noConfusion h
              · split at h
                · exact Except.noConfusion h
                · injection h with h
                  subst h
                  refine ⟨rfl, fun fx2 afx2 => ?_⟩
                  simp [AsyncModule.instantiate, AsyncModuleSt.is_instantiated]

/-- Witness for C8: a concrete fresh module instantiated under all-ok
effects, then instantiated again. -/
theorem instantiate_idempotence_witness :
    Module.instantiate fxAllOk
        { binary := [0], engine := some 1, linker := some 2,
          instance_pre := some 4, store := some 5, inst := some 6 } =
      .error ModuleError.AlreadyInstantiated :=
  ((instantiate_idempotence).1 fxAllOk
    { binary := [0], engine := none, linker := none, instance_pre := none,
      store := none, inst := none }
    { binary := [0], engine := some 1, linker := some 2, instance_pre := some 4,
      store := some 5, inst := some 6 } rfl).2 fxAllOk

/-- Each completed pool transition conserves queued plus outstanding. -/
theorem poolStep_conserves (s : PoolSt) (op : PoolOp) (s2 : PoolSt)
    (h : poolStep s op = some s2) :
    s2.queued.length + s2.leased.length = s.queued.length + s.leased.length := by
  cases op with
  | lease =>
    cases hq : s.queued with
    | nil => rw [poolStep, hq] at h; exact Option.noConfusion h
    | cons m rest =>
      rw [poolStep, hq] at h
      injection h with h
      subst h
      simp [hq]
      omega
  | tryLease =>
    cases hq : s.queued with
    | nil =>
      rw [poolStep, hq] at h
      injection h with h
      subst h
      simp [hq]
    | cons m rest =>
      rw [poolStep, hq] at h
      injection h with h
      subst h
      simp [hq]
      omega
  | release k =>
    cases hk : s.leased[k]? with
    | none => rw [poolStep, hk] at h; exact Option.noConfusion h
    | some m =>
      rw [poolStep, hk] at h
      injection h with h
      subst h
      have hklt : k < s.leased.length := (List.getElem?_eq_some.mp hk).1
      simp [List.length_eraseIdx, hklt]
      omega

/-- A completed run of pool operations conserves queued plus outstanding. -/
theorem poolRun_conserves (ops : List PoolOp) :
    ∀ (s s2 : PoolSt), poolRun s ops = some s2 →
      s2.queued.length + s2.leased.length = s.queued.length + s.leased.length := by
  induction ops with
  | nil =>
    intro s s2 h
    rw [poolRun] at h
    injection h with h
    subst h
    rfl
  | cons op ops ih =>
    intro s s2 h
    rw [poolRun] at h
    cases hstep : poolStep s op with
    | none => rw [hstep] at h; exact Option.noConfusion h
    | some s1 =>
      rw [hstep] at h
      exact (ih s1 s2 h).trans (poolStep_conserves s op s1 hstep)

/-- C9: over every reachable sequence of lease, try-lease and
release/return operations on a pool built with `N` modules, the deque
length plus the number of outstanding leases equals `N`; each lease removes
exactly the deque head and each return appends exactly one module to the
back (the shape of `poolStep`). -/
theorem pool_conservation (modules : List Nat) (ops : List PoolOp) (s2 : PoolSt)
    (h : poolRun (ModulePool.new modules) ops = some s2) :
    s2.queued.length + s2.leased.length = modules.length := by
  have := poolRun_conserves ops (ModulePool.new modules) s2 h
  simpa [ModulePool.new] using this

/-- Witness for C9: a pool of two modules driven through a lease, a
try-lease, two releases and one more try-lease. -/
theorem pool_conservation_witness :
    ((⟨[8], [7]⟩ : PoolSt).queued.length + (⟨[8], [7]⟩ : PoolSt).leased.length) =
      ([7, 8] : List Nat).length :=
  pool_conservation [7, 8]
    [PoolOp.lease, PoolOp.tryLease, PoolOp.release 0, PoolOp.release 0,
     PoolOp.tryLease] ⟨[8], [7]⟩ rfl

/-- C10: the default network configuration allows all three families, yet
its per-address predicate denies every pair; a `ModuleEnv` that never calls
`inherit`/`inherit_network`/`socket_check` carries exactly this
configuration, so the gate installed in the engine context denies every
address and every guarded socket action. -/
theorem default_network_denies_all :
    ModuleNetwork.new.allow_tcp = true ∧
    ModuleNetwork.new.allow_udp = true ∧
    ModuleNetwork.new.allow_dns = true ∧
    (∀ (addr : SocketAddr) (act : ModuleSocketAddrAction),
      ModuleNetwork.new.socket_check addr act = false) ∧
    ModuleEnv.new.network = ModuleNetwork.new ∧
    (wasiCtxOfModuleEnv ModuleEnv.new).allowTcp = true ∧
    (wasiCtxOfModuleEnv ModuleEnv.new).allowUdp = true ∧
    (wasiCtxOfModuleEnv ModuleEnv.new).allowDns = true ∧
    (∀ (addr : SocketAddr) (u : SocketAddrUse),
      (wasiCtxOfModuleEnv ModuleEnv.new).socketAddrCheck addr u = false) :=
  ⟨rfl, rfl, rfl, fun _ _ => rfl, rfl, rfl, rfl, rfl, fun _ _ => rfl⟩

end Binmod
